import Mathlib

/-
Verification development for the playing-card rank/suit extractor
(src/extractor.cpp, class Extractor).

The embedding models the data that flows through Extractor::extract and
Extractor::findSubImages.  Images are 2-D grids of pixel values; contours
are the (simplified polygon, bounding box) pairs produced by the OpenCV
calls findContours / approxPolyDP / boundingRect on lines 69-78.  The
external OpenCV operations themselves (grayscale conversion, blur, Canny,
contour tracing, and the drawContours rasterizer) are kept as parameters:
every claim below is settled for an arbitrary behavior of those
operations, and concrete instances are supplied for evaluation.

Display-only artifacts of the source (the drawing canvas, the RNG colors,
the named windows and the cout message) are omitted: none of them flows
into the rank/suit sub-images, the recorded rank position, or the boolean
result, which are the only observables the claims mention.
-/

/-- A 2-D integer point as used by the contour data consumed by
src/extractor.cpp.  Pixel coordinates are nonnegative, so natural numbers
model the C++ int values that actually occur. -/
structure Pt where
  x : Nat
  y : Nat
deriving DecidableEq

/-- An axis-aligned bounding rectangle.  tl is the top-left corner and br
the bottom-right corner in the sense of cv::Rect::br(), i.e. the exclusive
corner tl + (width, height), which is what lines 89-96 and 124-129 of
src/extractor.cpp read. -/
structure BRect where
  tl : Pt
  br : Pt
deriving DecidableEq

/-- Height of a bounding rectangle, exactly as computed on line 89 of
src/extractor.cpp: -tl.y + br.y.  For a boundingRect output br dominates
tl, so natural subtraction agrees with the C++ int subtraction. -/
def bHeight (r : BRect) : Nat := r.br.y - r.tl.y

/-- Width of a bounding rectangle, exactly as computed on line 90 of
src/extractor.cpp: -tl.x + br.x. -/
def bWidth (r : BRect) : Nat := r.br.x - r.tl.x

/-- One element of the contour list after the loop on lines 74-78 of
src/extractor.cpp: the simplified polygon contours_poly[i] together with
its bounding box boundRect[i] = boundingRect(contours_poly[i]). -/
structure Contour where
  poly : List Pt
  rect : BRect
deriving DecidableEq

/-- An in-memory image: a cv::Mat of the sizes and pixel values the
extractor reads.  Pixel values are abstracted to a single natural number
per coordinate; the extractor never computes with pixel values, it only
moves them around. -/
@[ext]
structure Image where
  cols : Nat
  rows : Nat
  pix : Nat → Nat → Nat

/-- A default-constructed cv::Mat, which is empty. -/
def emptyImage : Image := ⟨0, 0, fun _ _ => 0⟩

/-- Mat::zeros of the given size (lines 80-81 of src/extractor.cpp). -/
def Image.zeros (cols rows : Nat) : Image := ⟨cols, rows, fun _ _ => 0⟩

/-- Mat::clone performs a deep copy; as a value it is the same image. -/
def Image.clone (i : Image) : Image := i

/-- Mat::empty(): a Mat is empty iff it has no pixels. -/
def Image.isEmpty (i : Image) : Bool := decide (i.cols = 0) || decide (i.rows = 0)

/-- The ROI constructor Mat(m, rect) and the ROI call m(rect): the view of
the image restricted to the rectangle, re-indexed from its top-left
corner.  Used on line 31 (corner region) and lines 108 and 139 (sub-image
crops) of src/extractor.cpp. -/
def Image.crop (i : Image) (r : BRect) : Image :=
  ⟨bWidth r, bHeight r, fun x y => i.pix (r.tl.x + x) (r.tl.y + y)⟩

/-- Mat::copyTo with an operation mask, as invoked on lines 107 and 138 of
src/extractor.cpp: srcI.copyTo(dst, mask) overwrites dst at every
coordinate where the mask is nonzero and leaves dst unchanged elsewhere.
Here dst already has the same size and type as srcI, so no reallocation
(and hence no zero-initialization) of dst takes place. -/
def copyToMasked (dst srcI mask : Image) : Image :=
  ⟨dst.cols, dst.rows, fun x y => if mask.pix x y = 0 then dst.pix x y else srcI.pix x y⟩

/-- The sub-image construction of lines 106-108 (and 137-139) of
src/extractor.cpp: Mat imageROI = src.clone(); src.copyTo(imageROI, mask);
result = imageROI(boundRect).  mask2 is the state of extractMask after the
drawContours call on line 104 (resp. 135). -/
def contourSubImage (srcI mask2 : Image) (r : BRect) : Image :=
  Image.crop (copyToMasked (Image.clone srcI) srcI mask2) r

/-- The member fields of class Extractor that the claims observe.
Modelled from the spec: the class declaration lives in extractor.h, which
is not under src/.  The fields rank, suit, rankBrXPosition and
rankBrYPosition are member data (they are used across calls in
src/extractor.cpp without local declarations), and the spec requires that
a fresh instance fails fast with RankNotFound, which forces the recorded
rank position to start negative (line 118 tests rankBrYPosition less than
zero) and the rank/suit Mats to start empty (line 35 tests emptiness).
The display canvas and the RNG are omitted as display-only. -/
structure ExtractorState where
  enableShowResult : Bool
  rank : Image
  suit : Image
  rankBrX : Int
  rankBrY : Int

/-- Modelled from the spec: the state of a freshly constructed Extractor
(constructor on lines 14-17 plus the header initializers): empty rank and
suit Mats and a negative recorded rank position. -/
def initState (b : Bool) : ExtractorState := ⟨b, emptyImage, emptyImage, -1, -1⟩

/-- The rank rejection test of lines 94-96 of src/extractor.cpp, verbatim:
height * width < area / 10, or the truncated quotient height / width is
above 4 or below 1, or the bounding-box bottom-right corner lies beyond
(3 * cols / 4, 3 * rows / 4).  All divisions are C++ int divisions of
nonnegative values, i.e. natural-number division.  (Lean evaluates
h / 0 = 0, which rejects; a boundingRect of a nonempty polygon always has
positive width, so the case does not arise from the source pipeline.) -/
def rankReject (area cols rows : Nat) (c : Contour) : Bool :=
  decide (bHeight c.rect * bWidth c.rect < area / 10) ||
  decide (bHeight c.rect / bWidth c.rect > 4) ||
  decide (bHeight c.rect / bWidth c.rect < 1) ||
  decide (c.rect.br.x > 3 * cols / 4) ||
  decide (c.rect.br.y > 3 * rows / 4)

/-- The rank acceptance predicate exactly as claim C1 words it: area at
least a tenth of the region area, truncated aspect quotient between 1 and
4 inclusive, and the bounding-box bottom-right corner within
(3 * cols / 4, 3 * rows / 4), both bounds inclusive.  This definition
follows the words of the spec; the theorems relate it to the source-side
rankReject. -/
def rankAccept (area cols rows : Nat) (c : Contour) : Bool :=
  decide (area / 10 ≤ bHeight c.rect * bWidth c.rect) &&
  decide (1 ≤ bHeight c.rect / bWidth c.rect) &&
  decide (bHeight c.rect / bWidth c.rect ≤ 4) &&
  decide (c.rect.br.x ≤ 3 * cols / 4) &&
  decide (c.rect.br.y ≤ 3 * rows / 4)

/-- The suit rejection test of line 129 of src/extractor.cpp, verbatim:
height * width < area / 25, or the truncated aspect quotient is outside
1..4, or br.y <= rankBrYPosition + error, or
br.x >= rankBrXPosition + cols / 6.  The recorded rank position fields are
C++ ints (initially negative), hence Int here. -/
def suitReject (area cols : Nat) (rankX rankY : Int) (error : Nat) (c : Contour) : Bool :=
  decide (bHeight c.rect * bWidth c.rect < area / 25) ||
  decide (bHeight c.rect / bWidth c.rect > 4) ||
  decide (bHeight c.rect / bWidth c.rect < 1) ||
  decide ((c.rect.br.y : Int) ≤ rankY + (error : Int)) ||
  decide ((c.rect.br.x : Int) ≥ rankX + ((cols / 6 : Nat) : Int))

/-- The suit acceptance predicate exactly as claim C2 words it, for a
recorded rank bottom-right corner (rankX, rankY): area at least a
twenty-fifth of the region area, truncated aspect quotient between 1 and 4
inclusive, bottom-right y strictly greater than rankY + error, and
bottom-right x strictly less than rankX + cols / 6.  This definition
follows the words of the spec. -/
def suitAccept (area cols rankX rankY error : Nat) (c : Contour) : Bool :=
  decide (area / 25 ≤ bHeight c.rect * bWidth c.rect) &&
  decide (1 ≤ bHeight c.rect / bWidth c.rect) &&
  decide (bHeight c.rect / bWidth c.rect ≤ 4) &&
  decide (rankY + error < c.rect.br.y) &&
  decide (c.rect.br.x < rankX + cols / 6)

/-- The body of the else branch of the rank loop, lines 100-114 of
src/extractor.cpp: record the bottom-right corner of the selected contour,
draw its polygon onto the shared extract mask, and store the sub-image
cropped from the masked copy.  Returns the updated mask together with the
updated member state.  drawC is the (external) drawContours rasterizer. -/
def rankUpd (drawC : Image → List Pt → Image) (src mask : Image)
    (st : ExtractorState) (c : Contour) : Image × ExtractorState :=
  (drawC mask c.poly,
   { st with rankBrY := (c.rect.br.y : Int), rankBrX := (c.rect.br.x : Int),
             rank := contourSubImage src (drawC mask c.poly) c.rect })

/-- The body of the else branch of the suit loop, lines 132-145 of
src/extractor.cpp: draw the selected polygon onto the same shared mask and
store the suit sub-image.  The recorded rank position is not touched. -/
def suitUpd (drawC : Image → List Pt → Image) (src mask : Image)
    (st : ExtractorState) (c : Contour) : Image × ExtractorState :=
  (drawC mask c.poly,
   { st with suit := contourSubImage src (drawC mask c.poly) c.rect })

/-- The shared shape of the two selection loops of src/extractor.cpp
(lines 86-116 and 123-147): walk the contour list in order, skip every
contour the rejection test dismisses (the continue branch), and on the
first surviving contour perform the update and break. -/
def scanLoop (reject : Contour → Bool)
    (upd : Image → ExtractorState → Contour → Image × ExtractorState) :
    Image → ExtractorState → List Contour → Image × ExtractorState
  | mask, st, [] => (mask, st)
  | mask, st, c :: rest =>
    if reject c then scanLoop reject upd mask st rest else upd mask st c

/-- The rank loop of lines 86-116 of src/extractor.cpp, with
area = src.cols * src.rows as set on line 83. -/
def findRankLoop (drawC : Image → List Pt → Image) (src mask : Image)
    (st : ExtractorState) (cs : List Contour) : Image × ExtractorState :=
  scanLoop (rankReject (src.cols * src.rows) src.cols src.rows) (rankUpd drawC src) mask st cs

/-- The suit loop of lines 123-147 of src/extractor.cpp, run with the
currently recorded rank bottom-right corner (rankX, rankY). -/
def findSuitLoop (drawC : Image → List Pt → Image) (src : Image) (error : Nat)
    (rankX rankY : Int) (mask : Image) (st : ExtractorState) (cs : List Contour) :
    Image × ExtractorState :=
  scanLoop (suitReject (src.cols * src.rows) src.cols rankX rankY error) (suitUpd drawC src) mask st cs

/-- Extractor::findSubImages, lines 61-152 of src/extractor.cpp, from the
point where the contour list exists: create the zeroed extract mask (line
81), run the rank loop, return early if the recorded rank bottom-right y
is still negative (lines 118-121), otherwise run the suit loop on the same
contour list with the same mask.  error is the ERROR_MARGIN constant from
the header (value not under src/, kept as a parameter). -/
def findSubImages (drawC : Image → List Pt → Image) (error : Nat) (src : Image)
    (cs : List Contour) (st : ExtractorState) : ExtractorState :=
  let p := findRankLoop drawC src (Image.zeros src.cols src.rows) st cs
  if p.2.rankBrY < 0 then p.2
  else (findSuitLoop drawC src error p.2.rankBrX p.2.rankBrY p.1 p.2 cs).2

/-- The boolean returned by Extractor::extract on line 35 of
src/extractor.cpp: not (rank.empty() or suit.empty()), read from the
member fields. -/
def extractRet (st : ExtractorState) : Bool := !(st.rank.isEmpty || st.suit.isEmpty)

/-- The corner region selected on line 31 of src/extractor.cpp:
Mat(input, Rect(0, 0, input.cols / 4, input.rows / 3.5)).  The double
division rows / 3.5 equals 2 * rows / 7 exactly (both operands are exact
doubles for any realistic size) and the Rect constructor truncates it to
int, so the region height is the natural-number quotient 2 * rows / 7. -/
def regionOf (input : Image) : Image :=
  Image.crop input ⟨⟨0, 0⟩, ⟨input.cols / 4, 2 * input.rows / 7⟩⟩

/-- The external OpenCV operations the extractor calls, kept abstract:
grayscale conversion (line 32), the 3x3 blur (line 33), the
Canny/findContours/approxPolyDP/boundingRect chain producing the contour
list (lines 65-78), and the drawContours rasterizer (lines 104 and 135).
The claims are settled for every behavior of these operations. -/
structure CVOps where
  toGray : Image → Image
  blur3 : Image → Image
  buildContours : Image → List Contour
  drawC : Image → List Pt → Image

/-- Extractor::extract, lines 30-36 of src/extractor.cpp: crop the corner
region, convert to grayscale and blur, build the contour list, run
findSubImages, and return whether both the rank and suit member fields are
nonempty.  cv::cvtColor asserts that its source is nonempty, so an empty
region raises a library error instead of returning; this is the only error
exit. -/
def extract (cv : CVOps) (error : Nat) (st : ExtractorState) (input : Image) :
    Except String (ExtractorState × Bool) :=
  let src := regionOf input
  if src.isEmpty then Except.error "cvtColor precondition violated: source region is empty"
  else
    let cs := cv.buildContours (cv.blur3 (cv.toGray src))
    let st2 := findSubImages cv.drawC error src cs st
    Except.ok (st2, extractRet st2)

/-- The value of the OpenCV enumerator cv::THRESH_OTSU, which is the flag
bit 8 of cv::ThresholdTypes.  It is meaningful only as a flag to
cv::threshold; cv::Canny has no such flag and reads its third and fourth
arguments as plain numeric hysteresis thresholds. -/
def THRESH_OTSU : Nat := 8

/-- The two threshold arguments the source passes to cv::Canny on line 65
of src/extractor.cpp: Canny(src_gray, canny_output, THRESH_OTSU,
THRESH_OTSU).  Both are the literal enumerator value, whatever the
grayscale image contains. -/
def cannyThresholds (_g : Image) : Nat × Nat := (THRESH_OTSU, THRESH_OTSU)

/-- The boolean outcome of an extract call, with the library-error exit
kept. -/
def extractBool (cv : CVOps) (error : Nat) (st : ExtractorState) (input : Image) :
    Except String Bool :=
  (extract cv error st input).map fun p => p.2

/-- The member state of the Extractor after an extract call (unchanged if
the call ended in the library error). -/
def extractState (cv : CVOps) (error : Nat) (st : ExtractorState) (input : Image) :
    ExtractorState :=
  match extract cv error st input with
  | Except.ok p => p.1
  | Except.error _ => st

/-- A drawContours stand-in that leaves the canvas untouched, used to
instantiate the universally quantified rasterizer in witnesses. -/
def trivDraw : Image → List Pt → Image := fun m _ => m

/-- A drawContours stand-in that marks exactly the polygon vertices on the
canvas, used to exhibit mask residue concretely. -/
def drawPt : Image → List Pt → Image :=
  fun m p => ⟨m.cols, m.rows, fun x y => if Pt.mk x y ∈ p then 255 else m.pix x y⟩

/-- A concrete synthetic 100 x 140 region image with distinct pixel
values. -/
def src100 : Image := ⟨100, 140, fun x y => x + 100 * y⟩

/-- A concrete synthetic 200 x 280 region image, the size named by the
end-to-end scenario of the spec. -/
def src200 : Image := ⟨200, 280, fun x y => x + 200 * y⟩

/-- Rectangle A of the end-to-end scenario: polygon with bounding box
from (10,10) to exclusive corner (40,70), so height 60 and width 30. -/
def cA : Contour := ⟨[⟨10, 10⟩, ⟨39, 10⟩, ⟨39, 69⟩, ⟨10, 69⟩], ⟨⟨10, 10⟩, ⟨40, 70⟩⟩⟩

/-- Rectangle B of the end-to-end scenario: polygon with bounding box
from (10,85) to exclusive corner (35,120), so height 35 and width 25. -/
def cB : Contour := ⟨[⟨10, 85⟩, ⟨34, 85⟩, ⟨34, 119⟩, ⟨10, 119⟩], ⟨⟨10, 85⟩, ⟨35, 120⟩⟩⟩

/-- A contour with rectangle A's bounding box but an empty polygon. -/
def cA0 : Contour := ⟨[], ⟨⟨10, 10⟩, ⟨40, 70⟩⟩⟩

/-- A contour with rectangle A's bounding box and a one-vertex polygon at
the origin. -/
def cA1 : Contour := ⟨[⟨0, 0⟩], ⟨⟨10, 10⟩, ⟨40, 70⟩⟩⟩

/-- A contour too small to pass either filter. -/
def cBad : Contour := ⟨[⟨0, 0⟩], ⟨⟨0, 0⟩, ⟨1, 1⟩⟩⟩

/-- A zeroed mask of the size of src100. -/
def mask100 : Image := Image.zeros 100 140

/-- A concrete 400 x 490 input image whose corner region is
100 x 140. -/
def input1 : Image := ⟨400, 490, fun x y => x + 400 * y⟩

/-- A concrete 8 x 8 blank input image; its corner region is a nonempty
2 x 2 image. -/
def input2 : Image := ⟨8, 8, fun _ _ => 0⟩

/-- A concrete 9 x 9 input image; its corner region is a nonempty 2 x 2
image. -/
def input9 : Image := ⟨9, 9, fun _ _ => 1⟩

/-- A concrete 3 x 3 input image; its corner region is empty. -/
def tiny3 : Image := ⟨3, 3, fun _ _ => 0⟩

/-- Test-double OpenCV operations that find no contours anywhere. -/
def cvNil : CVOps := ⟨id, id, fun _ => [], trivDraw⟩

/-- Test-double OpenCV operations that report the two scenario contours on
any 100-column image and nothing elsewhere. -/
def cvTest : CVOps := ⟨id, id, fun g => if g.cols = 100 then [cA, cB] else [], trivDraw⟩

theorem copyToMasked_clone_self (i mask : Image) :
    copyToMasked (Image.clone i) i mask = i := by
  cases i with
  | mk cols rows pix =>
    show Image.mk cols rows _ = Image.mk cols rows pix
    congr 1
    funext x y
    exact ite_self _

theorem contourSubImage_eq (srcI mask2 : Image) (r : BRect) :
    contourSubImage srcI mask2 r = Image.crop srcI r := by
  unfold contourSubImage
  rw [copyToMasked_clone_self]

theorem scanLoop_none (reject : Contour → Bool)
    (upd : Image → ExtractorState → Contour → Image × ExtractorState)
    (mask : Image) (st : ExtractorState) (cs : List Contour) :
    (∀ c ∈ cs, reject c = true) → scanLoop reject upd mask st cs = (mask, st) := by
  induction cs with
  | nil => intro _; rfl
  | cons c rest ih =>
    intro hall
    have hc : reject c = true := hall c (List.mem_cons_self c rest)
    simp only [scanLoop, hc, if_true]
    exact ih fun d hd => hall d (List.mem_cons_of_mem c hd)

theorem scanLoop_first (reject : Contour → Bool)
    (upd : Image → ExtractorState → Contour → Image × ExtractorState)
    (mask : Image) (st : ExtractorState) (pre : List Contour) (c : Contour)
    (post : List Contour) :
    (∀ d ∈ pre, reject d = true) → reject c = false →
    scanLoop reject upd mask st (pre ++ c :: post) = upd mask st c := by
  induction pre with
  | nil =>
    intro _ hc
    simp only [List.nil_append, scanLoop, hc, Bool.false_eq_true, if_false]
  | cons d rest ih =>
    intro hpre hc
    have hd : reject d = true := hpre d (List.mem_cons_self d rest)
    simp only [List.cons_append, scanLoop, hd, if_true]
    exact ih (fun e he => hpre e (List.mem_cons_of_mem d he)) hc

theorem rankAccept_true_iff (area cols rows : Nat) (c : Contour) :
    rankAccept area cols rows c = true ↔ rankReject area cols rows c = false := by
  unfold rankAccept rankReject
  simp only [Bool.and_eq_true, decide_eq_true_eq, Bool.or_eq_false_iff,
    decide_eq_false_iff_not, Nat.not_lt, gt_iff_lt]
  generalize bHeight c.rect * bWidth c.rect = hw
  generalize bHeight c.rect / bWidth c.rect = q
  omega

theorem rankAccept_false_iff (area cols rows : Nat) (c : Contour) :
    rankAccept area cols rows c = false ↔ rankReject area cols rows c = true := by
  have h := rankAccept_true_iff area cols rows c
  cases hacc : rankAccept area cols rows c <;>
    cases hrej : rankReject area cols rows c <;> simp_all

theorem suitAccept_true_iff (area cols rankX rankY error : Nat) (c : Contour) :
    suitAccept area cols rankX rankY error c = true ↔
      suitReject area cols (rankX : Int) (rankY : Int) error c = false := by
  unfold suitAccept suitReject
  simp only [Bool.and_eq_true, decide_eq_true_eq, Bool.or_eq_false_iff,
    decide_eq_false_iff_not, Nat.not_lt, Int.not_le, Int.not_lt, gt_iff_lt, ge_iff_le]
  generalize bHeight c.rect * bWidth c.rect = hw
  generalize bHeight c.rect / bWidth c.rect = q
  omega

theorem suitAccept_false_iff (area cols rankX rankY error : Nat) (c : Contour) :
    suitAccept area cols rankX rankY error c = false ↔
      suitReject area cols (rankX : Int) (rankY : Int) error c = true := by
  have h := suitAccept_true_iff area cols rankX rankY error c
  cases hacc : suitAccept area cols rankX rankY error c <;>
    cases hrej : suitReject area cols (rankX : Int) (rankY : Int) error c <;> simp_all

theorem regionOf_cols (input : Image) : (regionOf input).cols = input.cols / 4 := by
  simp [regionOf, Image.crop, bWidth]

theorem regionOf_rows (input : Image) : (regionOf input).rows = 2 * input.rows / 7 := by
  simp [regionOf, Image.crop, bHeight]

theorem regionOf_isEmpty_false (input : Image) (hc : 4 ≤ input.cols)
    (hr : 4 ≤ input.rows) : (regionOf input).isEmpty = false := by
  simp only [Image.isEmpty, regionOf_cols, regionOf_rows, Bool.or_eq_false_iff,
    decide_eq_false_iff_not]
  omega

theorem initState_extractRet (b : Bool) : extractRet (initState b) = false := by
  simp [extractRet, initState, emptyImage, Image.isEmpty]

theorem findSubImages_no_rank (drawC : Image → List Pt → Image) (error : Nat)
    (src : Image) (cs : List Contour) (st : ExtractorState) (hneg : st.rankBrY < 0) :
    (∀ c ∈ cs, rankReject (src.cols * src.rows) src.cols src.rows c = true) →
    findSubImages drawC error src cs st = st := by
  intro hall
  unfold findSubImages findRankLoop
  rw [scanLoop_none _ _ _ _ _ hall]
  simp only [hneg, if_true]

theorem extract_no_rank (cv : CVOps) (error : Nat) (b : Bool) (input : Image)
    (hc : 4 ≤ input.cols) (hr : 4 ≤ input.rows) :
    (∀ c ∈ cv.buildContours (cv.blur3 (cv.toGray (regionOf input))),
      rankReject ((regionOf input).cols * (regionOf input).rows)
        (regionOf input).cols (regionOf input).rows c = true) →
    extract cv error (initState b) input = Except.ok (initState b, false) := by
  intro hall
  unfold extract
  simp only [regionOf_isEmpty_false input hc hr, Bool.false_eq_true, if_false]
  rw [findSubImages_no_rank cv.drawC error (regionOf input) _ (initState b)
    (by simp [initState]) hall]
  rw [initState_extractRet]

/-- C1.  Rank selection: the rank loop of findSubImages walks the contour
list in builder-output order and selects exactly the first contour
satisfying all four conditions of the claim (area at least regionArea/10,
truncated height/width quotient between 1 and 4 inclusive, bottom-right x
at most 3*regionWidth/4, bottom-right y at most 3*regionHeight/4, both
position bounds inclusive): if no contour satisfies them the loop changes
nothing, and if the list splits as pre ++ c :: post with every contour of
pre failing the conditions and c satisfying them, the loop performs
exactly the rank update for c.  rankAccept is the claim's wording;
rankReject inside findRankLoop is the source's test. -/
theorem rank_filter_first_match (drawC : Image → List Pt → Image)
    (src mask : Image) (st : ExtractorState) (cs : List Contour) :
    ((∀ c ∈ cs, rankAccept (src.cols * src.rows) src.cols src.rows c = false) →
      findRankLoop drawC src mask st cs = (mask, st)) ∧
    (∀ pre c post, cs = pre ++ c :: post →
      (∀ d ∈ pre, rankAccept (src.cols * src.rows) src.cols src.rows d = false) →
      rankAccept (src.cols * src.rows) src.cols src.rows c = true →
      findRankLoop drawC src mask st cs = rankUpd drawC src mask st c) := by
  constructor
  · intro hall
    unfold findRankLoop
    exact scanLoop_none _ _ _ _ _ fun c hc => (rankAccept_false_iff _ _ _ c).mp (hall c hc)
  · intro pre c post hcs hpre hc
    subst hcs
    unfold findRankLoop
    exact scanLoop_first _ _ _ _ _ _ _
      (fun d hd => (rankAccept_false_iff _ _ _ d).mp (hpre d hd))
      ((rankAccept_true_iff _ _ _ c).mp hc)

/-- Witness for C1 at a concrete input: a single too-small contour is
rejected and the rank loop leaves mask and state unchanged. -/
theorem rank_filter_first_match_witness :
    findRankLoop trivDraw src100 mask100 (initState false) [cBad] =
      (mask100, initState false) :=
  (rank_filter_first_match trivDraw src100 mask100 (initState false) [cBad]).1
    (by decide)

/-- C2.  Suit selection: with a recorded rank bottom-right corner
(rankX, rankY), the suit loop walks the same contour list in the same
order and selects exactly the first contour satisfying all four conditions
of the claim (area at least regionArea/25, truncated height/width quotient
between 1 and 4 inclusive, bottom-right y strictly greater than
rankY + ERROR_MARGIN, bottom-right x strictly less than
rankX + regionWidth/6): if no contour satisfies them the loop changes
nothing, and the first satisfying contour receives exactly the suit
update.  suitAccept is the claim's wording; suitReject inside findSuitLoop
is the source's test. -/
theorem suit_filter_first_match (drawC : Image → List Pt → Image)
    (src mask : Image) (st : ExtractorState) (cs : List Contour)
    (error rankX rankY : Nat) :
    ((∀ c ∈ cs, suitAccept (src.cols * src.rows) src.cols rankX rankY error c = false) →
      findSuitLoop drawC src error (rankX : Int) (rankY : Int) mask st cs = (mask, st)) ∧
    (∀ pre c post, cs = pre ++ c :: post →
      (∀ d ∈ pre, suitAccept (src.cols * src.rows) src.cols rankX rankY error d = false) →
      suitAccept (src.cols * src.rows) src.cols rankX rankY error c = true →
      findSuitLoop drawC src error (rankX : Int) (rankY : Int) mask st cs =
        suitUpd drawC src mask st c) := by
  constructor
  · intro hall
    unfold findSuitLoop
    exact scanLoop_none _ _ _ _ _
      fun c hc => (suitAccept_false_iff _ _ _ _ _ c).mp (hall c hc)
  · intro pre c post hcs hpre hc
    subst hcs
    unfold findSuitLoop
    exact scanLoop_first _ _ _ _ _ _ _
      (fun d hd => (suitAccept_false_iff _ _ _ _ _ d).mp (hpre d hd))
      ((suitAccept_true_iff _ _ _ _ _ c).mp hc)

/-- Witness for C2 at a concrete input: with the rank corner recorded at
(40, 70), rectangle A itself fails the strict below-the-rank condition and
the suit loop leaves mask and state unchanged. -/
theorem suit_filter_first_match_witness :
    findSuitLoop trivDraw src100 0 ((40 : Nat) : Int) ((70 : Nat) : Int) mask100
      (initState false) [cA] = (mask100, initState false) :=
  (suit_filter_first_match trivDraw src100 mask100 (initState false) [cA] 0 40 70).1
    (by decide)

/-- C3.  Fail-fast on missing rank: from a fresh instance, on an input
whose corner region is nonempty, if no contour of the built list satisfies
the four rank conditions then extract returns failure with the member
state exactly as it started - in particular the suit filter ran on
nothing and neither sub-image was produced. -/
theorem rank_missing_fail_fast (cv : CVOps) (error : Nat) (b : Bool)
    (input : Image) (hc : 4 ≤ input.cols) (hr : 4 ≤ input.rows)
    (hall : ∀ c ∈ cv.buildContours (cv.blur3 (cv.toGray (regionOf input))),
      rankAccept ((regionOf input).cols * (regionOf input).rows)
        (regionOf input).cols (regionOf input).rows c = false) :
    extract cv error (initState b) input = Except.ok (initState b, false) :=
  extract_no_rank cv error b input hc hr
    fun c hmem => (rankAccept_false_iff _ _ _ c).mp (hall c hmem)

/-- Witness for C3: a blank 8 x 8 input with the contour builder that
finds nothing yields failure with the fresh state unchanged. -/
theorem rank_missing_fail_fast_witness :
    extract cvNil 0 (initState false) input2 = Except.ok (initState false, false) :=
  rank_missing_fail_fast cvNil 0 false input2 (by decide) (by decide)
    (by intro c hmem; simp [cvNil] at hmem)

theorem findSubImages_rank_some (drawC : Image → List Pt → Image) (error : Nat)
    (src : Image) (cs : List Contour) (st : ExtractorState) (pre : List Contour)
    (c : Contour) (post : List Contour) (hcs : cs = pre ++ c :: post)
    (hpre : ∀ d ∈ pre, rankReject (src.cols * src.rows) src.cols src.rows d = true)
    (hc : rankReject (src.cols * src.rows) src.cols src.rows c = false) :
    findSubImages drawC error src cs st =
      (findSuitLoop drawC src error (c.rect.br.x : Int) (c.rect.br.y : Int)
        (drawC (Image.zeros src.cols src.rows) c.poly)
        { st with rankBrY := (c.rect.br.y : Int), rankBrX := (c.rect.br.x : Int),
                  rank := contourSubImage src (drawC (Image.zeros src.cols src.rows) c.poly) c.rect }
        cs).2 := by
  have hloop : findRankLoop drawC src (Image.zeros src.cols src.rows) st cs =
      rankUpd drawC src (Image.zeros src.cols src.rows) st c := by
    rw [hcs]
    unfold findRankLoop
    exact scanLoop_first _ _ _ _ _ _ _ hpre hc
  simp only [findSubImages]
  rw [hloop]
  simp only [rankUpd]
  rw [if_neg (by omega : ¬ ((c.rect.br.y : Int) < 0))]

/-- C4 fails on the code: extract calls are not independent.  The member
fields rank, suit, rankBrXPosition and rankBrYPosition are never reset by
extract or findSubImages (src/extractor.cpp lines 30-36 and 100-108), so
they persist across calls.  Evaluation at a concrete failing input: on a
fresh instance, an 8 x 8 blank image whose region yields zero contours
makes extract return false; after a successful call on a card-like input,
the very same blank image makes extract return true, because the stale
rank and suit sub-images of the previous call still sit in the member
fields and line 35 only tests those fields. -/
theorem extract_not_independent_eval :
    extractBool cvTest 10 (initState false) input2 = Except.ok false ∧
    extractBool cvTest 10 (initState false) input1 = Except.ok true ∧
    extractBool cvTest 10 (extractState cvTest 10 (initState false) input1) input2 =
      Except.ok true := by
  refine ⟨rfl, rfl, rfl⟩

/-- C5 fails on the code: the thresholds handed to cv::Canny on line 65 of
src/extractor.cpp are the literal enumerator value THRESH_OTSU = 8 twice,
for every grayscale image alike.  Canny has no Otsu mode; the arguments
are read as plain numeric hysteresis thresholds, so edge detection runs
with the fixed manual thresholds (8, 8) and nothing is computed from the
image content. -/
theorem canny_thresholds_fixed :
    ∀ g1 g2 : Image, cannyThresholds g1 = cannyThresholds g2 ∧
      cannyThresholds g1 = (8, 8) :=
  fun _ _ => ⟨rfl, rfl⟩

/-- Counterexample to C6 at a concrete input: on a fresh instance, region
src100 with the single contour cA (which passes the rank filter and, being
the rank itself, fails the suit filter) makes the call fail, yet the rank
member field - empty before the call - now holds a newly produced nonempty
rank sub-image. -/
theorem failing_call_keeps_rank_cex :
    extractRet (findSubImages trivDraw 0 src100 [cA] (initState false)) = false ∧
    (findSubImages trivDraw 0 src100 [cA] (initState false)).rank.isEmpty = false ∧
    (initState false).rank.isEmpty = true := by
  refine ⟨rfl, rfl, rfl⟩

/-- C6 as amended: when extract fails because no rank is found (from a
fresh state), the state is returned untouched and no sub-image is
produced; but when a rank is found and no contour passes the suit filter,
the failing call does leave the newly produced rank sub-image (and the
recorded rank corner) in the member state - only the suit field remains
empty, which is what makes the returned boolean false.  This theorem
proves the second, amended half; the first half is the content of the C3
theorem. -/
theorem failure_keeps_partial_rank (drawC : Image → List Pt → Image)
    (error : Nat) (src : Image) (cs : List Contour) (b : Bool)
    (pre : List Contour) (c : Contour) (post : List Contour)
    (hcs : cs = pre ++ c :: post)
    (hpre : ∀ d ∈ pre, rankAccept (src.cols * src.rows) src.cols src.rows d = false)
    (hc : rankAccept (src.cols * src.rows) src.cols src.rows c = true)
    (hsuit : ∀ d ∈ cs, suitAccept (src.cols * src.rows) src.cols
      c.rect.br.x c.rect.br.y error d = false) :
    findSubImages drawC error src cs (initState b) =
      { initState b with rankBrY := (c.rect.br.y : Int), rankBrX := (c.rect.br.x : Int),
                           rank := Image.crop src c.rect } ∧
    extractRet (findSubImages drawC error src cs (initState b)) = false := by
  have h1 := findSubImages_rank_some drawC error src cs (initState b) pre c post hcs
    (fun d hd => (rankAccept_false_iff _ _ _ d).mp (hpre d hd))
    ((rankAccept_true_iff _ _ _ c).mp hc)
  have h2 : findSuitLoop drawC src error (c.rect.br.x : Int) (c.rect.br.y : Int)
      (drawC (Image.zeros src.cols src.rows) c.poly)
      { initState b with rankBrY := (c.rect.br.y : Int), rankBrX := (c.rect.br.x : Int),
                           rank := contourSubImage src (drawC (Image.zeros src.cols src.rows) c.poly) c.rect }
      cs =
      (drawC (Image.zeros src.cols src.rows) c.poly,
       { initState b with rankBrY := (c.rect.br.y : Int), rankBrX := (c.rect.br.x : Int),
                            rank := contourSubImage src (drawC (Image.zeros src.cols src.rows) c.poly) c.rect }) := by
    unfold findSuitLoop
    exact scanLoop_none _ _ _ _ _
      fun d hd => (suitAccept_false_iff _ _ _ _ _ d).mp (hsuit d hd)
  have hmain : findSubImages drawC error src cs (initState b) =
      { initState b with rankBrY := (c.rect.br.y : Int), rankBrX := (c.rect.br.x : Int),
                           rank := Image.crop src c.rect } := by
    rw [h1, h2, contourSubImage_eq]
  refine ⟨hmain, ?_⟩
  rw [hmain]
  simp [extractRet, initState, emptyImage, Image.isEmpty]

/-- Witness for the amended C6 at a concrete input: the single-contour
region of the counterexample, where the failing call records rank corner
(40, 70) and stores the crop of rectangle A as the rank sub-image. -/
theorem failure_keeps_partial_rank_witness :
    findSubImages trivDraw 0 src100 [cA] (initState false) =
      { initState false with rankBrY := (cA.rect.br.y : Int),
                               rankBrX := (cA.rect.br.x : Int), rank := Image.crop src100 cA.rect } ∧
    extractRet (findSubImages trivDraw 0 src100 [cA] (initState false)) = false :=
  failure_keeps_partial_rank trivDraw 0 src100 [cA] false [] cA [] rfl
    (by simp) (by decide) (by decide)

/-- C7 fails on the code: the sub-image construction of lines 106-108 and
137-139 of src/extractor.cpp first clones the whole region image and then
performs the masked copy onto that clone, so the copy changes nothing and
the polygon mask has no effect whatsoever.  For every rasterization
behavior of drawContours and every mask state, the produced sub-image is
the plain crop of the region image to the bounding box: every bounding-box
pixel is kept, including all pixels outside the contour polygon. -/
theorem subimage_ignores_polygon_mask :
    ∀ (srcI mask2 : Image) (r : BRect) (x y : Nat),
      contourSubImage srcI mask2 r = Image.crop srcI r ∧
      (contourSubImage srcI mask2 r).pix x y = srcI.pix (r.tl.x + x) (r.tl.y + y) := by
  intro srcI mask2 r x y
  refine ⟨contourSubImage_eq srcI mask2 r, ?_⟩
  rw [contourSubImage_eq]
  rfl

/-- Counterexample to C8 at a concrete input: more than (rankX, rankY) is
carried from the rank filter into the suit filter.  The extract mask
created on line 81 of src/extractor.cpp is shared: the rank loop draws the
selected polygon onto it (line 104) and the very same mask object is what
the suit loop then draws onto and uses (lines 135-138).  Two single-
contour lists whose contours have the same bounding box - hence identical
recorded (rankX, rankY) - but different polygons hand the suit phase
different masks: with the vertex-marking rasterizer, the mask reaching the
suit loop differs at pixel (0, 0). -/
theorem suit_phase_mask_residue_cex :
    (findRankLoop drawPt src100 mask100 (initState false) [cA1]).2.rankBrX =
      (findRankLoop drawPt src100 mask100 (initState false) [cA0]).2.rankBrX ∧
    (findRankLoop drawPt src100 mask100 (initState false) [cA1]).2.rankBrY =
      (findRankLoop drawPt src100 mask100 (initState false) [cA0]).2.rankBrY ∧
    (findRankLoop drawPt src100 mask100 (initState false) [cA1]).1.pix 0 0 = 255 ∧
    (findRankLoop drawPt src100 mask100 (initState false) [cA0]).1.pix 0 0 = 0 := by
  refine ⟨rfl, rfl, ?_, ?_⟩ <;> decide

/-- C8 as amended: the state carried from the rank filter into the suit
filter consists of the recorded corner (rankX, rankY) together with the
shared extract mask, onto which the rank polygon has been drawn;
nevertheless the pixel content of the suit sub-image does not depend on
that mask - nor, beyond the (rankX, rankY) constraints, on which contour
was extracted as rank - because the masked copy writes onto a full clone
of the region image and therefore has no effect.  Formally: for any two
rasterizers and any two incoming masks, the suit loop stores the same suit
sub-image. -/
theorem suit_subimage_mask_independent (drawC1 drawC2 : Image → List Pt → Image)
    (src m1 m2 : Image) (error : Nat) (rankX rankY : Int) (st : ExtractorState)
    (cs : List Contour) :
    (findSuitLoop drawC1 src error rankX rankY m1 st cs).2.suit =
      (findSuitLoop drawC2 src error rankX rankY m2 st cs).2.suit := by
  induction cs with
  | nil => rfl
  | cons c rest ih =>
    by_cases h : suitReject (src.cols * src.rows) src.cols rankX rankY error c = true
    · simpa only [findSuitLoop, scanLoop, h, if_true] using ih
    · have hf : suitReject (src.cols * src.rows) src.cols rankX rankY error c = false := by
        cases hx : suitReject (src.cols * src.rows) src.cols rankX rankY error c <;> simp_all
      simp only [findSuitLoop, scanLoop, hf, Bool.false_eq_true, if_false, suitUpd,
        contourSubImage_eq]

/-- Counterexample to C9 at a concrete input: a 3 x 3 input image has the
empty corner region Rect(0, 0, 3/4, floor(3/3.5)) = Rect(0, 0, 0, 0), and
the call then dies on the cvtColor nonemptiness assertion (line 32 of
src/extractor.cpp) instead of returning failure normally: extract has an
error path. -/
theorem empty_region_error_cex :
    extract cvNil 10 (initState false) tiny3 =
      Except.error "cvtColor precondition violated: source region is empty" := rfl

/-- C9 as amended: for every input whose corner region is nonempty (at
least 4 columns and 4 rows), an empty contour list is handled uniformly as
RankNotFound with no special-case path - extract returns failure normally
and changes nothing; inputs whose corner region is empty instead hit the
cvtColor library assertion rather than returning failure. -/
theorem empty_contours_rank_not_found (cv : CVOps) (error : Nat) (b : Bool)
    (input : Image) (hc : 4 ≤ input.cols) (hr : 4 ≤ input.rows)
    (hnil : cv.buildContours (cv.blur3 (cv.toGray (regionOf input))) = []) :
    extract cv error (initState b) input = Except.ok (initState b, false) :=
  extract_no_rank cv error b input hc hr
    (by rw [hnil]; intro d hd; exact absurd hd (List.not_mem_nil d))

/-- Witness for the amended C9: a 9 x 9 input with the contour builder
that finds nothing has a nonempty 2 x 2 region and yields normal
failure. -/
theorem empty_contours_rank_not_found_witness :
    extract cvNil 5 (initState true) input9 = Except.ok (initState true, false) :=
  empty_contours_rank_not_found cvNil 5 true input9 (by decide) (by decide) rfl

/-- Counterexample to C10 at its explicit input: in a 200 x 280 region
(area 56000) neither scenario rectangle passes the area filter - rectangle
A has bounding-box area 60 * 30 = 1800 < 56000 / 10 and rectangle B has
35 * 25 = 875 < 56000 / 10 (and 875 < 56000 / 25 as well) - so no rank is
found, extract fails, and neither sub-image is produced. -/
theorem scenario_200x280_fails_cex :
    rankAccept (200 * 280) 200 280 cA = false ∧
    rankAccept (200 * 280) 200 280 cB = false ∧
    findSubImages trivDraw 10 src200 [cA, cB] (initState false) = initState false ∧
    extractRet (findSubImages trivDraw 10 src200 [cA, cB] (initState false)) = false := by
  refine ⟨by decide, by decide, rfl, rfl⟩

/-- C10 as amended: the scenario succeeds once the region is small enough
for the area filters, which the stated 200 x 280 size is not; the
counterexample forces the region down to (e.g.) 100 x 140 (area 14000, so
rectangle A's 1800 passes 14000 / 10 = 1400 and rectangle B's 875 passes
14000 / 25 = 560) and forces the assumption ERROR_MARGIN less than 50
(B's bottom edge 120 must clear A's bottom edge 70 by more than the
margin).  Then, for every rasterizer behavior, extract succeeds with the
rank sub-image cropped to rectangle A's bounding box and the suit
sub-image cropped to rectangle B's bounding box. -/
theorem scenario_100x140_succeeds (drawC : Image → List Pt → Image) (b : Bool)
    (error : Nat) (he : error < 50) :
    (findSubImages drawC error src100 [cA, cB] (initState b)).rank =
      Image.crop src100 cA.rect ∧
    (findSubImages drawC error src100 [cA, cB] (initState b)).suit =
      Image.crop src100 cB.rect ∧
    extractRet (findSubImages drawC error src100 [cA, cB] (initState b)) = true := by
  have h1 := findSubImages_rank_some drawC error src100 [cA, cB] (initState b)
    [] cA [cB] rfl (by simp) (by decide)
  have hrA : suitReject (src100.cols * src100.rows) src100.cols
      (cA.rect.br.x : Int) (cA.rect.br.y : Int) error cA = true := by
    simp only [suitReject, cA, src100, bHeight, bWidth, Bool.or_eq_true,
      decide_eq_true_eq]
    omega
  have hrB : suitReject (src100.cols * src100.rows) src100.cols
      (cA.rect.br.x : Int) (cA.rect.br.y : Int) error cB = false := by
    simp only [suitReject, cA, cB, src100, bHeight, bWidth, Bool.or_eq_false_iff,
      decide_eq_false_iff_not]
    omega
  have h2 : ∀ (m : Image) (st1 : ExtractorState),
      findSuitLoop drawC src100 error (cA.rect.br.x : Int) (cA.rect.br.y : Int)
          m st1 [cA, cB] =
        suitUpd drawC src100 m st1 cB := by
    intro m st1
    unfold findSuitLoop
    exact scanLoop_first _ _ _ _ [cA] cB []
      (by intro d hd; simp only [List.mem_singleton] at hd; subst hd; exact hrA) hrB
  rw [h1, h2]
  refine ⟨?_, ?_, ?_⟩ <;>
    simp [suitUpd, contourSubImage_eq, extractRet, Image.isEmpty, Image.crop,
      bWidth, bHeight, cA, cB, initState]

/-- Witness for the amended C10 at the concrete margin 10 and the identity
rasterizer. -/
theorem scenario_100x140_succeeds_witness :
    (findSubImages trivDraw 10 src100 [cA, cB] (initState false)).rank =
      Image.crop src100 cA.rect ∧
    (findSubImages trivDraw 10 src100 [cA, cB] (initState false)).suit =
      Image.crop src100 cB.rect ∧
    extractRet (findSubImages trivDraw 10 src100 [cA, cB] (initState false)) = true :=
  scenario_100x140_succeeds trivDraw false 10 (by decide)
